import Mathlib

/-!
Verification development for the AccidentAlert accident-candidate processing
pipeline (repository how-i-met-your-coder).

The repository ships only a minimal frontend (frontend/src/App.tsx), a backend
build script and documentation; the pipeline components described in spec.md
(dedup index, ingestion gate, job queue, geolocation fusion, PII redaction,
confidence router, review state machine, incident store and feed) are not
present as source files.  Those components are therefore modelled here from
the specification text, each such definition carrying a doc comment starting
with the words Modelled from the spec.  The frontend App component is embedded
directly from frontend/src/App.tsx.
-/

namespace AccidentAlert

/-! ## Core data model (spec section 3) -/

/-- Modelled from the spec: Incident status set
pending, auto_published, in_review, approved, rejected (spec section 3). -/
inductive IncidentStatus where
  | pending
  | auto_published
  | in_review
  | approved
  | rejected
deriving DecidableEq, Repr

/-- Modelled from the spec: detection classes vehicle, debris, face, plate
and a catch-all for other classes (spec section 3). -/
inductive DetClass where
  | vehicle
  | debris
  | face
  | plate
  | other
deriving DecidableEq, Repr

/-- Axis-aligned bounding box with top-left corner (x, y), width w and
height h, in pixels. -/
structure BBox where
  x : Nat
  y : Nat
  w : Nat
  h : Nat
deriving DecidableEq, Repr

/-- Modelled from the spec: a Detection is a bounding box, a class and a
confidence score, owned by its Incident (spec section 3). -/
structure Detection where
  bbox : BBox
  cls : DetClass
  conf : ℚ
deriving DecidableEq, Repr

/-- Geographic coordinate. -/
structure Coord where
  lat : ℚ
  lon : ℚ
deriving DecidableEq, Repr

/-- Modelled from the spec: an Incident record with the fields the pipeline
claims depend on: id, status, owned detections, dedup hash, creation time,
non-owning duplicateOf lookup key, severity score, optional fused location,
needs-attention flag and source reference (spec section 3). -/
structure Incident where
  id : Nat
  status : IncidentStatus
  detections : List Detection
  dedupHash : List Bool
  createdAt : Nat
  duplicateOf : Option Nat
  severity : ℚ
  location : Option Coord
  needsAttention : Bool
  sourceRef : String
deriving DecidableEq, Repr

/-! ## Confidence Router (spec section 4.5) -/

/-- Modelled from the spec: router configuration, the numeric weights of the
weighted sum and the two thresholds high and low are configuration, not
hardcoded behaviour (spec sections 4.5 and 9). -/
structure RouterConfig where
  wDet : ℚ
  wGeo : ℚ
  wSev : ℚ
  high : ℚ
  low : ℚ
deriving DecidableEq, Repr

/-- Modelled from the spec: the router input tuple
(detectionScore, geoConfidence, severity, piiFlag); piiFlag is true when the
PII redaction stage reports a low-confidence redaction (spec section 4.5). -/
structure RouterInput where
  detectionScore : ℚ
  geoConfidence : ℚ
  severity : ℚ
  piiFlag : Bool
deriving DecidableEq, Repr

/-- Modelled from the spec: routing outcomes (spec section 4.5). -/
inductive RouteOutcome where
  | auto_published
  | in_review
  | rejected
deriving DecidableEq, Repr

/-- Modelled from the spec: the weighted-sum score of the Confidence Router
(spec section 4.5). -/
def routeScore (cfg : RouterConfig) (i : RouterInput) : ℚ :=
  cfg.wDet * i.detectionScore + cfg.wGeo * i.geoConfidence + cfg.wSev * i.severity

/-- Modelled from the spec: the Confidence Router.  Any low-confidence PII
redaction forces in_review irrespective of score; otherwise the weighted-sum
score is compared against the two thresholds: score at least high gives
auto_published, score at least low gives in_review, below low gives rejected
(spec section 4.5). -/
def confidenceRouter (cfg : RouterConfig) (i : RouterInput) : RouteOutcome :=
  if i.piiFlag then .in_review
  else if cfg.high ≤ routeScore cfg i then .auto_published
  else if cfg.low ≤ routeScore cfg i then .in_review
  else .rejected

/-! ## Geolocation Fusion Engine (spec section 4.3) -/

/-- Modelled from the spec: a collaborator geolocation signal, candidate
coordinates plus a confidence (OCR geocoding) or similarity (visual place
matching) score (spec section 4.3). -/
structure GeoSignal where
  coord : Coord
  conf : ℚ
deriving DecidableEq, Repr

/-- Modelled from the spec: which signal the fused location came from, or
unresolved when neither signal cleared its threshold (spec section 4.3). -/
inductive GeoSourceTag where
  | ocr
  | visual
  | unresolved
deriving DecidableEq, Repr

/-- Modelled from the spec: a fused geolocation estimate with its derived
confidence, source tag, and the manual-location-correction flag raised when
the two signals disagree beyond epsilon (spec section 4.3). -/
structure FusedLocation where
  coord : Option Coord
  confidence : ℚ
  source : GeoSourceTag
  flagged : Bool
deriving DecidableEq, Repr

/-- Modelled from the spec: fusion configuration, the two signal thresholds,
the agreement distance epsilon and the agreement boost (spec section 4.3). -/
structure FusionConfig where
  ocrThreshold : ℚ
  visThreshold : ℚ
  agreementEps : ℚ
  agreeBoost : ℚ
deriving DecidableEq, Repr

/-- Modelled from the spec: distance between two candidate coordinates, used
only to compare against the agreement epsilon (spec section 4.3). -/
def coordDist (a b : Coord) : ℚ :=
  |a.lat - b.lat| + |a.lon - b.lon|

/-- Modelled from the spec: the unresolved fused location, confidence zero
(spec section 4.3). -/
def unresolvedLocation : FusedLocation :=
  { coord := none, confidence := 0, source := .unresolved, flagged := false }

/-- Modelled from the spec: the visual fallback branch of fusion, used when
the OCR signal is absent or below its threshold (spec section 4.3). -/
def visualFallback (cfg : FusionConfig) (vis : Option GeoSignal) : FusedLocation :=
  match vis with
  | some v =>
      if cfg.visThreshold ≤ v.conf then
        { coord := some v.coord, confidence := v.conf, source := .visual, flagged := false }
      else unresolvedLocation
  | none => unresolvedLocation

/-- Modelled from the spec: the Geolocation Fusion Engine.  If OCR confidence
is at least its threshold its coordinate is preferred; with a visual signal
also present, agreement within epsilon boosts the fused confidence (bounded
above by 1) while disagreement beyond epsilon reduces it and flags the
Incident for manual location correction.  Below the OCR threshold the engine
falls back to the visual match if its similarity clears its threshold, and
otherwise the location is unresolved with confidence zero (spec section 4.3). -/
def fuseLocation (cfg : FusionConfig) (ocr vis : Option GeoSignal) : FusedLocation :=
  match ocr with
  | some o =>
      if cfg.ocrThreshold ≤ o.conf then
        match vis with
        | some v =>
            if coordDist o.coord v.coord ≤ cfg.agreementEps then
              { coord := some o.coord
                confidence := min 1 ((o.conf + v.conf) / 2 + cfg.agreeBoost)
                source := .ocr, flagged := false }
            else
              { coord := some o.coord, confidence := o.conf / 2
                source := .ocr, flagged := true }
        | none =>
            { coord := some o.coord, confidence := o.conf, source := .ocr, flagged := false }
      else visualFallback cfg vis
  | none => visualFallback cfg vis

/-- Modelled from the spec: pipeline status decision after fusion.  An
unresolved location forces review, and a location flagged for manual
correction goes to review regardless of other scores; otherwise the
Confidence Router decides (spec sections 4.3 and 4.5). -/
def statusForFusion (rcfg : RouterConfig) (loc : FusedLocation) (i : RouterInput) : RouteOutcome :=
  if loc.source = .unresolved ∨ loc.flagged then .in_review
  else confidenceRouter rcfg i

/-! ## PII Redaction Stage (spec section 4.4) -/

/-- A raster artifact: width, height and row-major pixel byte values. -/
structure Artifact where
  width : Nat
  height : Nat
  pixels : List Nat
deriving DecidableEq, Repr

/-- Pixel value of an artifact at column x, row y (row-major layout). -/
def getPx (a : Artifact) (x y : Nat) : Nat :=
  a.pixels.getD (y * a.width + x) 0

/-- Membership of a point in a bounding box. -/
def inBox (b : BBox) (x y : Nat) : Bool :=
  b.x ≤ x && x < b.x + b.w && b.y ≤ y && y < b.y + b.h

/-- Modelled from the spec: a detection bounding box padded by the safety
margin on every side, clamped at the image origin (spec section 4.4). -/
def padBox (pad : Nat) (b : BBox) : BBox :=
  { x := b.x - pad, y := b.y - pad, w := b.w + 2 * pad, h := b.h + 2 * pad }

/-- Modelled from the spec: the PII Redaction Stage consumes exactly the
Detections classified as face or plate (spec section 4.4). -/
def piiDets (dets : List Detection) : List Detection :=
  dets.filter fun d => d.cls = DetClass.face ∨ d.cls = DetClass.plate

/-- Whether a point lies inside the padded box of some face or plate
detection. -/
def inAnyPII (pad : Nat) (dets : List Detection) (x y : Nat) : Bool :=
  (piiDets dets).any fun d => inBox (padBox pad d.bbox) x y

/-- Modelled from the spec: the blur or mask transform applied to a pixel of
a PII region.  Inverting the high bit guarantees the masked byte always
differs from the original, so a redacted region is never byte-identical to
the original region (spec sections 4.4 and 8). -/
def redactPixel (v : Nat) : Nat :=
  (v + 128) % 256

/-- Modelled from the spec: well-formed detection geometry, a nonempty box
lying entirely inside the artifact; anything else is malformed and triggers
the fail-safe path (spec section 4.4). -/
def validGeometry (a : Artifact) (b : BBox) : Bool :=
  0 < b.w && 0 < b.h && b.x + b.w ≤ a.width && b.y + b.h ≤ a.height

/-- Pixel buffer of the redacted artifact: every pixel inside the padded box
of a face or plate detection is masked, every other pixel is copied
unchanged. -/
def redactedPixels (pad : Nat) (a : Artifact) (dets : List Detection) : List Nat :=
  (List.range (a.width * a.height)).map fun idx =>
    let v := a.pixels.getD idx 0
    if inAnyPII pad dets (idx % a.width) (idx / a.width) then redactPixel v else v

/-- Modelled from the spec: the PII Redaction Stage.  With no face or plate
detections the original artifact is already safe to publish.  When every
padded PII box has well-formed geometry the stage produces the redacted
artifact; on malformed geometry it fails safe by holding the Incident for
review, publishing nothing (spec section 4.4). -/
def redactStage (pad : Nat) (a : Artifact) (dets : List Detection) : Option Artifact :=
  if piiDets dets = [] then some a
  else if (piiDets dets).all (fun d => validGeometry a (padBox pad d.bbox)) then
    some { width := a.width, height := a.height, pixels := redactedPixels pad a dets }
  else none

/-! ## Dedup Index and Ingestion Gate (spec section 4.1) -/

/-- Modelled from the spec: a DedupEntry of the perceptual-hash store: hash,
incident id and insertion time (spec section 3). -/
structure DedupEntry where
  hash : List Bool
  incidentId : Nat
  insertedAt : Nat
deriving DecidableEq, Repr

/-- Modelled from the spec: dedup configuration, the Hamming-distance
threshold T (default 8) and the retention window (spec section 4.1). -/
structure DedupConfig where
  maxDist : Nat
  retentionWindow : Nat
deriving DecidableEq, Repr

/-- Hamming distance between two bit strings; extra positions of the longer
string each count as a mismatch. -/
def hammingDist : List Bool → List Bool → Nat
  | [], b => b.length
  | a :: as, [] => (a :: as).length
  | a :: as, b :: bs => (if a = b then 0 else 1) + hammingDist as bs

/-- Modelled from the spec: an incoming image, represented by its perceptual
hash and a well-formedness bit; the hash function itself is a black-box
collaborator (spec sections 4.1 and glossary). -/
structure Image where
  phash : List Bool
  wellFormed : Bool
deriving DecidableEq, Repr

/-- Modelled from the spec: source metadata accompanying a submission;
priority separates manual submissions from scraped ones (spec sections 4.1
and 4.2). -/
structure SourceMeta where
  source : String
  priority : Nat
deriving DecidableEq, Repr

/-- Modelled from the spec: Job record with id, priority, payload reference
(incident id), retry count and state (spec section 3). -/
inductive JobState where
  | queued
  | running
  | succeeded
  | failed
  | dead_letter
deriving DecidableEq, Repr

structure Job where
  id : Nat
  priority : Nat
  incidentId : Nat
  retryCount : Nat
  state : JobState
deriving DecidableEq, Repr

/-- Modelled from the spec: the persistent state the Ingestion Gate touches:
the dedup index, the incident store, the job queue and the id counters
(spec section 4.1). -/
structure IngestState where
  dedup : List DedupEntry
  incidents : List Incident
  jobs : List Job
  nextIncidentId : Nat
  nextJobId : Nat
deriving DecidableEq, Repr

/-- Modelled from the spec: the result record of submit:
accepted flag, new incident id, and optional duplicateOf reference
(spec section 4.1). -/
structure SubmitOutcome where
  accepted : Bool
  incidentId : Option Nat
  duplicateOf : Option Nat
deriving DecidableEq, Repr

/-- Whether a dedup entry matches the submitted hash: Hamming distance at
most T and inserted within the retention window. -/
def isDupMatch (cfg : DedupConfig) (now : Nat) (hash : List Bool) (e : DedupEntry) : Bool :=
  hammingDist e.hash hash ≤ cfg.maxDist && now ≤ e.insertedAt + cfg.retentionWindow

/-- The pending Incident created for a freshly accepted image. -/
def newIncident (st : IngestState) (img : Image) (meta : SourceMeta) (now : Nat) : Incident :=
  { id := st.nextIncidentId, status := .pending, detections := []
    dedupHash := img.phash, createdAt := now, duplicateOf := none
    severity := 0, location := none, needsAttention := false
    sourceRef := meta.source }

/-- The queued Job enqueued for a freshly accepted image. -/
def newJob (st : IngestState) (meta : SourceMeta) : Job :=
  { id := st.nextJobId, priority := meta.priority
    incidentId := st.nextIncidentId, retryCount := 0, state := .queued }

/-- Modelled from the spec: the Ingestion Gate submit operation.  Malformed
input is rejected with no Incident created.  A hash match within distance T
and the retention window returns duplicateOf pointing at the existing
incident and leaves the state untouched (no new Job, default no-op dedup
policy).  On no match the hash is inserted, a pending Incident is created
and a Job is enqueued, all in the one atomic state update (spec section 4.1). -/
def submit (cfg : DedupConfig) (st : IngestState) (img : Image) (meta : SourceMeta)
    (now : Nat) : IngestState × SubmitOutcome :=
  if img.wellFormed = false then
    (st, { accepted := false, incidentId := none, duplicateOf := none })
  else
    match st.dedup.find? (isDupMatch cfg now img.phash) with
    | some e => (st, { accepted := false, incidentId := none, duplicateOf := some e.incidentId })
    | none =>
        ({ dedup := { hash := img.phash, incidentId := st.nextIncidentId, insertedAt := now } :: st.dedup
           incidents := newIncident st img meta now :: st.incidents
           jobs := newJob st meta :: st.jobs
           nextIncidentId := st.nextIncidentId + 1
           nextJobId := st.nextJobId + 1 },
         { accepted := true, incidentId := some st.nextIncidentId, duplicateOf := none })

/-! ## Job retry discipline (spec sections 4.2 and 7) -/

/-- Modelled from the spec: the outcomes of one execution attempt of a Job
that the retry loop distinguishes: success, or a transient external error
(network or timeout on a collaborator call) which is retried with backoff up
to the configured maximum attempt count (spec sections 4.2 and 7). -/
inductive ExecResult where
  | Success
  | TransientExternalError
deriving DecidableEq, Repr

/-- Modelled from the spec: one step of the retry discipline on a Job paired
with the needs-attention flag destined for its owning Incident.  A terminal
Job is left alone.  Success ends the Job.  A transient error increments the
attempt count; when the count reaches the configured maximum the Job moves to
dead_letter and the owning Incident is flagged, otherwise the Job is
re-queued for another attempt (spec section 4.2). -/
def stepJob (maxAttempts : Nat) (p : Job × Bool) (res : ExecResult) : Job × Bool :=
  let j := p.1
  if j.state = .succeeded ∨ j.state = .dead_letter then p
  else
    match res with
    | .Success => ({ j with state := .succeeded }, p.2)
    | .TransientExternalError =>
        if maxAttempts ≤ j.retryCount + 1 then
          ({ j with retryCount := j.retryCount + 1, state := .dead_letter }, true)
        else
          ({ j with retryCount := j.retryCount + 1, state := .queued }, p.2)

/-- Folding the retry discipline over a sequence of attempt outcomes. -/
def runAttempts (maxAttempts : Nat) (j : Job) (rs : List ExecResult) : Job × Bool :=
  rs.foldl (stepJob maxAttempts) (j, false)

/-- Modelled from the spec: a dead-lettered Job marks its owning Incident
with the failed or needs-attention flag so it stays visible to operators and
is never silently dropped (spec sections 4.2 and 7). -/
def markNeedsAttention (inc : Incident) (flag : Bool) : Incident :=
  if flag then { inc with needsAttention := true } else inc

/-! ## Review State Machine and Audit Log (spec section 4.6) -/

/-- Modelled from the spec: reviewer actions: approve, reject, and the
explicit reopen that returns a terminal Incident to in_review
(spec section 4.6). -/
inductive ReviewActionKind where
  | approve
  | reject
  | reopen
deriving DecidableEq, Repr

/-- Modelled from the spec: the immutable audit record appended for every
transition: incident, actor, action, timestamp, prior state, new state and
optional note (spec sections 3 and 4.6). -/
structure ReviewAction where
  incidentId : Nat
  actor : String
  kind : ReviewActionKind
  timestamp : Nat
  priorStatus : IncidentStatus
  newStatus : IncidentStatus
  note : Option String
deriving DecidableEq, Repr

/-- Modelled from the spec: error taxonomy entries the review surface
reports: ReviewConflict when an attempted transition violates the state
machine, and a per-item not-found failure (spec section 7). -/
inductive ReviewError where
  | ReviewConflict
  | IncidentNotFound
deriving DecidableEq, Repr

/-- Modelled from the spec: the reviewer-driven part of the state machine.
Only in_review accepts approve or reject; approved and rejected are terminal
and accept only the explicit reopen back to in_review; every other
combination is an invalid transition (spec section 4.6). -/
def reviewTransition : IncidentStatus → ReviewActionKind → Option IncidentStatus
  | .in_review, .approve => some .approved
  | .in_review, .reject => some .rejected
  | .approved, .reopen => some .in_review
  | .rejected, .reopen => some .in_review
  | _, _ => none

/-- The incident store together with the append-only audit log. -/
structure ReviewState where
  incidents : List Incident
  audit : List ReviewAction
deriving DecidableEq, Repr

/-- Modelled from the spec: applying one reviewer action.  The status update
and the audit append happen in the same operation: both in the returned state
on success, neither on failure, and an invalid transition fails with
ReviewConflict leaving the state untouched (spec sections 4.6 and 5). -/
def applyReview (s : ReviewState) (actor : String) (id : Nat) (kind : ReviewActionKind)
    (ts : Nat) (note : Option String) : ReviewState × Option ReviewError :=
  match s.incidents.find? (fun i => i.id = id) with
  | none => (s, some .IncidentNotFound)
  | some inc =>
      match reviewTransition inc.status kind with
      | none => (s, some .ReviewConflict)
      | some newSt =>
          ({ incidents := s.incidents.map fun i => if i.id = id then { i with status := newSt } else i
             audit := s.audit ++ [{ incidentId := id, actor := actor, kind := kind, timestamp := ts
                                    priorStatus := inc.status, newStatus := newSt, note := note }] },
           none)

/-! ## Incident Store and Feed (spec section 4.7) -/

/-- Geographic bounding box filter of a feed query. -/
structure GeoBounds where
  minLat : ℚ
  maxLat : ℚ
  minLon : ℚ
  maxLon : ℚ
deriving DecidableEq, Repr

/-- Whether a coordinate lies inside a geographic bounding box. -/
def inBounds (b : GeoBounds) (c : Coord) : Bool :=
  b.minLat ≤ c.lat && c.lat ≤ b.maxLat && b.minLon ≤ c.lon && c.lon ≤ b.maxLon

/-- Modelled from the spec: a paginated feed query filtered by status, time
range and geographic bounding box, ordered by recency or severity
(spec section 4.7). -/
structure FeedQuery where
  statusFilter : Option IncidentStatus
  fromTime : Option Nat
  toTime : Option Nat
  bounds : Option GeoBounds
  bySeverity : Bool
  offset : Nat
  limit : Nat
deriving DecidableEq, Repr

/-- Modelled from the spec: feed visibility: only auto_published and
approved Incidents are feed-visible (spec section 4.7). -/
def feedVisible : IncidentStatus → Bool
  | .auto_published => true
  | .approved => true
  | _ => false

/-- Whether an incident passes the optional filters of a feed query. -/
def matchesQuery (q : FeedQuery) (i : Incident) : Bool :=
  (match q.statusFilter with | some s => i.status = s | none => true) &&
  (match q.fromTime with | some t => t ≤ i.createdAt | none => true) &&
  (match q.toTime with | some t => i.createdAt ≤ t | none => true) &&
  (match q.bounds with
   | some b => match i.location with | some c => inBounds b c | none => false
   | none => true)

/-- Modelled from the spec: the public feed query: visibility gate, filters,
ordering by severity or recency (newest first), then pagination
(spec section 4.7). -/
def queryFeed (store : List Incident) (q : FeedQuery) : List Incident :=
  let visible := store.filter fun i => feedVisible i.status && matchesQuery q i
  let sorted := visible.mergeSort fun a b =>
    if q.bySeverity then b.severity ≤ a.severity else b.createdAt ≤ a.createdAt
  (sorted.drop q.offset).take q.limit

/-- Modelled from the spec: the review queue surfaces exactly the in_review
set (spec section 4.7). -/
def reviewQueue (store : List Incident) : List Incident :=
  store.filter fun i => i.status = IncidentStatus.in_review

/-! ## Frontend App component (embedded from frontend/src/App.tsx) -/

/-- Whether the first list starts the second: pat leads s. -/
def leadsWith : List Char → List Char → Bool
  | [], _ => true
  | _ :: _, [] => false
  | p :: ps, c :: cs => p = c && leadsWith ps cs

/-- Replace the first occurrence of pat in s by rep, the semantics of the
JavaScript String replace method with a string pattern, which substitutes
only the first match (an empty pattern matches at position zero). -/
def replaceFirstAux (pat rep : List Char) : List Char → List Char
  | [] => if pat = [] then rep else []
  | c :: cs =>
      if leadsWith pat (c :: cs) then rep ++ (c :: cs).drop pat.length
      else c :: replaceFirstAux pat rep cs

/-- String wrapper for first-occurrence replacement. -/
def jsReplaceFirst (s pat rep : String) : String :=
  ⟨replaceFirstAux pat.data rep.data s.data⟩

/-- Whether pat occurs as a contiguous substring of s. -/
def containsSubstr (pat : List Char) : List Char → Bool
  | [] => pat.isEmpty
  | c :: cs => leadsWith pat (c :: cs) || containsSubstr pat cs

/-- Embedded from frontend/src/App.tsx line 4: when window is defined the
guessed host is the page hostname with the first occurrence of the substring
frontend replaced by backend, otherwise the empty string. -/
def guessedHost (windowDefined : Bool) (hostname : String) : String :=
  if windowDefined then jsReplaceFirst hostname "frontend" "backend" else ""

/-- Embedded from frontend/src/App.tsx line 5: the backend base URL is the
guessed host behind the https scheme when the guessed host is truthy
(nonempty), otherwise the empty string. -/
def backendBase (windowDefined : Bool) (hostname : String) : String :=
  if guessedHost windowDefined hostname ≠ "" then
    "https://" ++ guessedHost windowDefined hostname
  else ""

/-- The two observable shapes of the Backend API card rendered by App:
either the health and docs links, or the fallback paragraph saying the
backend URL could not be inferred from the hostname. -/
inductive BackendSection where
  | links (health docs : String)
  | fallbackMessage
deriving DecidableEq, Repr

/-- Embedded from frontend/src/App.tsx lines 16 to 24: when backendBase is
truthy App renders the health and docs links derived from it, otherwise the
fallback message. -/
def renderBackendSection (windowDefined : Bool) (hostname : String) : BackendSection :=
  if backendBase windowDefined hostname ≠ "" then
    .links (backendBase windowDefined hostname ++ "/health")
      (backendBase windowDefined hostname ++ "/docs")
  else .fallbackMessage

/-! ## Theorems -/

/-- C3: for every Confidence Router input with weighted-sum score s and
configured thresholds high and low (low at most high): if s is at least high
the outcome is auto_published; if s is at least low and below high the
outcome is in_review; if s is below low the outcome is rejected; and
whenever the PII-redaction-confidence flag indicates low-confidence
redaction the outcome is in_review regardless of s. -/
theorem C3_confidence_router_thresholds (cfg : RouterConfig) (i : RouterInput)
    (hlh : cfg.low ≤ cfg.high) :
    (i.piiFlag = true → confidenceRouter cfg i = .in_review) ∧
    (i.piiFlag = false →
      (cfg.high ≤ routeScore cfg i → confidenceRouter cfg i = .auto_published) ∧
      (cfg.low ≤ routeScore cfg i → routeScore cfg i < cfg.high →
        confidenceRouter cfg i = .in_review) ∧
      (routeScore cfg i < cfg.low → confidenceRouter cfg i = .rejected)) := by
  constructor
  · intro hp
    simp [confidenceRouter, hp]
  · intro hp
    refine ⟨fun hhi => ?_, fun hlo hhi => ?_, fun hlo => ?_⟩
    · simp [confidenceRouter, hp, hhi]
    · simp [confidenceRouter, hp, not_le.mpr hhi, hlo]
    · have hhi : ¬ cfg.high ≤ routeScore cfg i := not_le.mpr (lt_of_lt_of_le hlo hlh)
      simp [confidenceRouter, hp, hhi, not_le.mpr hlo]

/-- Concrete instance of C3: with weights (1, 0, 0), thresholds high 0.8 and
low 0.5, and a non-PII input of detection score 0.9, the router
auto-publishes. -/
theorem C3_confidence_router_thresholds_witness :
    (0.5 : ℚ) ≤ 0.8 ∧
    confidenceRouter ⟨1, 0, 0, 0.8, 0.5⟩ ⟨0.9, 0, 0, false⟩ = .auto_published := by
  refine ⟨by norm_num, ?_⟩
  exact ((C3_confidence_router_thresholds ⟨1, 0, 0, 0.8, 0.5⟩ ⟨0.9, 0, 0, false⟩
    (by norm_num)).2 rfl).1 (by norm_num [routeScore])

/-- C4: the Confidence Router is a deterministic pure function: two
invocations whose input tuples (detectionScore, geoConfidence, severity,
piiFlag) agree componentwise produce the identical routing outcome. -/
theorem C4_confidence_router_pure (cfg : RouterConfig) (a b : RouterInput)
    (hd : a.detectionScore = b.detectionScore)
    (hg : a.geoConfidence = b.geoConfidence)
    (hs : a.severity = b.severity)
    (hp : a.piiFlag = b.piiFlag) :
    confidenceRouter cfg a = confidenceRouter cfg b := by
  have hab : a = b := by
    cases a; cases b; simp_all
  rw [hab]

/-- Concrete instance of C4: two syntactically different but componentwise
equal input tuples route identically. -/
theorem C4_confidence_router_pure_witness :
    confidenceRouter ⟨1, 1, 1, 2, 1⟩ ⟨1/2, 0, 0, false⟩ =
      confidenceRouter ⟨1, 1, 1, 2, 1⟩ ⟨2/4, 0, 0, false⟩ :=
  C4_confidence_router_pure ⟨1, 1, 1, 2, 1⟩ ⟨1/2, 0, 0, false⟩ ⟨2/4, 0, 0, false⟩
    (by norm_num) rfl rfl rfl

/-- C7: Geolocation Fusion selects its coordinate by the stated rule: if OCR
geocoding confidence is at least its threshold the fused coordinate is the
OCR one; otherwise, if the visual-match similarity is at least its threshold,
the fused location is the visual-match signal; otherwise the location is
unresolved with fused confidence zero, and the pipeline then routes the
Incident to review regardless of the router input. -/
theorem C7_geolocation_fusion (cfg : FusionConfig) (o v : GeoSignal) :
    (cfg.ocrThreshold ≤ o.conf →
      (fuseLocation cfg (some o) (some v)).coord = some o.coord ∧
      (fuseLocation cfg (some o) (some v)).source = .ocr) ∧
    (o.conf < cfg.ocrThreshold → cfg.visThreshold ≤ v.conf →
      fuseLocation cfg (some o) (some v) =
        { coord := some v.coord, confidence := v.conf, source := .visual, flagged := false }) ∧
    (o.conf < cfg.ocrThreshold → v.conf < cfg.visThreshold →
      fuseLocation cfg (some o) (some v) = unresolvedLocation ∧
      (fuseLocation cfg (some o) (some v)).confidence = 0 ∧
      ∀ (rcfg : RouterConfig) (inp : RouterInput),
        statusForFusion rcfg (fuseLocation cfg (some o) (some v)) inp = .in_review) := by
  refine ⟨fun ho => ?_, fun ho hv => ?_, fun ho hv => ?_⟩
  · by_cases hd : coordDist o.coord v.coord ≤ cfg.agreementEps <;>
      simp [fuseLocation, ho, hd]
  · simp [fuseLocation, not_le.mpr ho, visualFallback, hv]
  · have hfu : fuseLocation cfg (some o) (some v) = unresolvedLocation := by
      simp [fuseLocation, not_le.mpr ho, visualFallback, not_le.mpr hv]
    refine ⟨hfu, ?_, ?_⟩
    · rw [hfu]; rfl
    · intro rcfg inp
      rw [hfu]
      simp [statusForFusion, unresolvedLocation]

/-- Concrete instance of C7, the scenario of the spec: OCR confidence 0.2
below its threshold 0.5 and visual similarity 0.9 above its threshold 0.5
give the visual-match coordinate, not the OCR one. -/
theorem C7_geolocation_fusion_witness :
    (0.2 : ℚ) < 0.5 ∧ (0.5 : ℚ) ≤ 0.9 ∧
    fuseLocation ⟨0.5, 0.5, 1, 0.1⟩ (some ⟨⟨10, 70⟩, 0.2⟩) (some ⟨⟨11, 71⟩, 0.9⟩) =
      { coord := some ⟨11, 71⟩, confidence := 0.9, source := .visual, flagged := false } := by
  refine ⟨by norm_num, by norm_num, ?_⟩
  exact (C7_geolocation_fusion ⟨0.5, 0.5, 1, 0.1⟩ ⟨⟨10, 70⟩, 0.2⟩ ⟨⟨11, 71⟩, 0.9⟩).2.1
    (by norm_num) (by norm_num)

/-- C2: no Incident with status pending or in_review is ever included in a
feed query result; only auto_published and approved Incidents are
feed-visible; and the review queue returns exactly the in_review subset of
the store. -/
theorem C2_feed_visibility (store : List Incident) (q : FeedQuery) (i : Incident) :
    (i ∈ queryFeed store q →
      (i.status ≠ .pending ∧ i.status ≠ .in_review) ∧
      (i.status = .auto_published ∨ i.status = .approved)) ∧
    (i ∈ reviewQueue store ↔ i ∈ store ∧ i.status = .in_review) := by
  constructor
  · intro hmem
    simp only [queryFeed] at hmem
    have h1 := List.mem_of_mem_drop (List.mem_of_mem_take hmem)
    rw [List.mem_mergeSort, List.mem_filter] at h1
    have hv : feedVisible i.status = true := by
      have h2 := h1.2
      rw [Bool.and_eq_true] at h2
      exact h2.1
    cases hst : i.status <;> rw [hst] at hv <;> simp [feedVisible] at hv <;> simp [hst]
  · rw [reviewQueue, List.mem_filter]
    constructor
    · intro h
      exact ⟨h.1, by simpa using h.2⟩
    · intro h
      exact ⟨h.1, by simp [h.2]⟩

/-- Concrete instance of C2: a store holding one auto_published and one
in_review incident; the feed member is not pending nor in_review, and the
in_review incident sits in the review queue. -/
theorem C2_feed_visibility_witness :
    ((⟨1, .auto_published, [], [], 5, none, 0, none, false, "a"⟩ : Incident).status ≠ .pending ∧
     (⟨1, .auto_published, [], [], 5, none, 0, none, false, "a"⟩ : Incident).status ≠ .in_review) ∧
    ((⟨2, .in_review, [], [], 6, none, 0, none, false, "b"⟩ : Incident) ∈
      reviewQueue [⟨1, .auto_published, [], [], 5, none, 0, none, false, "a"⟩,
                   ⟨2, .in_review, [], [], 6, none, 0, none, false, "b"⟩]) := by
  constructor
  · exact ((C2_feed_visibility
      [⟨1, .auto_published, [], [], 5, none, 0, none, false, "a"⟩,
       ⟨2, .in_review, [], [], 6, none, 0, none, false, "b"⟩]
      ⟨none, none, none, none, false, 0, 10⟩
      ⟨1, .auto_published, [], [], 5, none, 0, none, false, "a"⟩).1
      (by simp [queryFeed, feedVisible, matchesQuery])).1
  · exact (C2_feed_visibility
      [⟨1, .auto_published, [], [], 5, none, 0, none, false, "a"⟩,
       ⟨2, .in_review, [], [], 6, none, 0, none, false, "b"⟩]
      ⟨none, none, none, none, false, 0, 10⟩
      ⟨2, .in_review, [], [], 6, none, 0, none, false, "b"⟩).2.mpr ⟨by decide, rfl⟩

/-- C6: for an Incident in a terminal state (approved or rejected), any
reviewer action other than reopen fails with ReviewConflict and returns the
state unchanged; and every successful reviewer action appends exactly one
audit record carrying the prior and new status in the same operation as the
status change, leaving the earlier audit log intact. -/
theorem C6_review_transitions (s : ReviewState) (actor : String) (id : Nat)
    (kind : ReviewActionKind) (ts : Nat) (note : Option String) (inc : Incident)
    (hfind : s.incidents.find? (fun i => i.id = id) = some inc) :
    ((inc.status = .approved ∨ inc.status = .rejected) → kind ≠ .reopen →
      applyReview s actor id kind ts note = (s, some .ReviewConflict)) ∧
    (∀ s2, applyReview s actor id kind ts note = (s2, none) →
      ∃ newSt, reviewTransition inc.status kind = some newSt ∧
        s2.audit = s.audit ++
          [{ incidentId := id, actor := actor, kind := kind, timestamp := ts
             priorStatus := inc.status, newStatus := newSt, note := note }] ∧
        s2.incidents = s.incidents.map
          fun i => if i.id = id then { i with status := newSt } else i) := by
  constructor
  · intro hterm hkind
    have ht : reviewTransition inc.status kind = none := by
      rcases hterm with h | h <;> rw [h] <;> cases kind <;>
        first
        | rfl
        | exact absurd rfl hkind
    simp [applyReview, hfind, ht]
  · intro s2 happ
    cases htr : reviewTransition inc.status kind with
    | none =>
        simp [applyReview, hfind, htr] at happ
    | some newSt =>
        simp only [applyReview, hfind, htr, Prod.mk.injEq, and_true] at happ
        refine ⟨newSt, rfl, ?_, ?_⟩
        · rw [← happ]
        · rw [← happ]

/-- Concrete instance of C6: approving a rejected incident without a prior
reopen fails with ReviewConflict and leaves the state untouched. -/
theorem C6_review_transitions_witness :
    applyReview ⟨[⟨7, .rejected, [], [], 0, none, 0, none, false, "s"⟩], []⟩
        "reviewer" 7 .approve 10 none =
      (⟨[⟨7, .rejected, [], [], 0, none, 0, none, false, "s"⟩], []⟩, some .ReviewConflict) :=
  (C6_review_transitions ⟨[⟨7, .rejected, [], [], 0, none, 0, none, false, "s"⟩], []⟩
    "reviewer" 7 .approve 10 none ⟨7, .rejected, [], [], 0, none, 0, none, false, "s"⟩
    (by simp)).1 (Or.inr rfl) (by decide)

/-- C8: with a configured maximum attempt count of 3, three consecutive
TransientExternalError results move a fresh queued Job to dead_letter with
recorded attempt count 3 and raise the needs-attention flag, and marking the
owning Incident with that flag sets its needsAttention field, so the
Incident stays visible rather than being silently dropped. -/
theorem C8_retry_dead_letter (j : Job) (inc : Incident)
    (h0 : j.retryCount = 0) (hq : j.state = .queued) :
    runAttempts 3 j
        [.TransientExternalError, .TransientExternalError, .TransientExternalError] =
      ({ j with retryCount := 3, state := .dead_letter }, true) ∧
    (markNeedsAttention inc
        (runAttempts 3 j
          [.TransientExternalError, .TransientExternalError, .TransientExternalError]).2).needsAttention
      = true := by
  obtain ⟨jid, jpr, jinc, jrc, jst⟩ := j
  simp only at h0 hq
  subst h0 hq
  have hrun : runAttempts 3 (⟨jid, jpr, jinc, 0, .queued⟩ : Job)
      [.TransientExternalError, .TransientExternalError, .TransientExternalError] =
      ((⟨jid, jpr, jinc, 3, .dead_letter⟩ : Job), true) := by
    simp [runAttempts, stepJob, List.foldl]
  exact ⟨hrun, by rw [hrun]; simp [markNeedsAttention]⟩

/-- Concrete instance of C8 at a specific job and incident. -/
theorem C8_retry_dead_letter_witness :
    runAttempts 3 (⟨1, 0, 2, 0, .queued⟩ : Job)
        [.TransientExternalError, .TransientExternalError, .TransientExternalError] =
      ((⟨1, 0, 2, 3, .dead_letter⟩ : Job), true) :=
  (C8_retry_dead_letter ⟨1, 0, 2, 0, .queued⟩
    ⟨2, .pending, [], [], 0, none, 0, none, false, "s"⟩ rfl rfl).1

/-- C5: for every well-formed image whose hash matches some Dedup Index
entry within Hamming distance at most T inserted within the retention
window, submit leaves the whole state unchanged (no new Job, no new
Incident) and returns a duplicateOf reference to the incident of a matching
entry; on no match it inserts the hash, creates a new pending Incident and
enqueues a new queued Job in the one atomic state update. -/
theorem C5_dedup_submit (cfg : DedupConfig) (st : IngestState) (img : Image)
    (meta : SourceMeta) (now : Nat) (hwf : img.wellFormed = true) :
    ((∃ e ∈ st.dedup, isDupMatch cfg now img.phash e = true) →
      (submit cfg st img meta now).1 = st ∧
      ∃ e ∈ st.dedup, isDupMatch cfg now img.phash e = true ∧
        (submit cfg st img meta now).2.duplicateOf = some e.incidentId) ∧
    (st.dedup.find? (isDupMatch cfg now img.phash) = none →
      submit cfg st img meta now =
        ({ dedup := { hash := img.phash, incidentId := st.nextIncidentId, insertedAt := now }
              :: st.dedup
           incidents := newIncident st img meta now :: st.incidents
           jobs := newJob st meta :: st.jobs
           nextIncidentId := st.nextIncidentId + 1
           nextJobId := st.nextJobId + 1 },
         { accepted := true, incidentId := some st.nextIncidentId, duplicateOf := none }) ∧
      (newIncident st img meta now).status = .pending ∧
      (newJob st meta).state = .queued) := by
  constructor
  · intro hex
    have hsome : (st.dedup.find? (isDupMatch cfg now img.phash)).isSome := by
      rw [List.find?_isSome]
      obtain ⟨e, he, hm⟩ := hex
      exact ⟨e, he, hm⟩
    obtain ⟨e, hfind⟩ := Option.isSome_iff_exists.mp hsome
    have hmem : e ∈ st.dedup := List.mem_of_find?_eq_some hfind
    have hmatch : isDupMatch cfg now img.phash e = true := List.find?_some hfind
    refine ⟨?_, e, hmem, hmatch, ?_⟩ <;> simp [submit, hwf, hfind]
  · intro hnone
    refine ⟨?_, rfl, rfl⟩
    simp [submit, hwf, hnone]

/-- Concrete instance of C5: a hash already indexed for incident 3 is
resubmitted; the state is unchanged and the outcome references incident 3. -/
theorem C5_dedup_submit_witness :
    (submit ⟨8, 100⟩ ⟨[⟨[true, false], 3, 0⟩], [], [], 4, 9⟩ ⟨[true, true], true⟩ ⟨"manual", 1⟩ 0).1 =
      ⟨[⟨[true, false], 3, 0⟩], [], [], 4, 9⟩ ∧
    (submit ⟨8, 100⟩ ⟨[⟨[true, false], 3, 0⟩], [], [], 4, 9⟩ ⟨[true, true], true⟩ ⟨"manual", 1⟩ 0).2.duplicateOf =
      some 3 := by
  refine ⟨?_, by decide⟩
  exact ((C5_dedup_submit ⟨8, 100⟩ ⟨[⟨[true, false], 3, 0⟩], [], [], 4, 9⟩ ⟨[true, true], true⟩
    ⟨"manual", 1⟩ 0 rfl).1 ⟨⟨[true, false], 3, 0⟩, by decide, by decide⟩).1

/-- The mask transform never has a fixed point on byte values, so a masked
pixel always differs from the original pixel. -/
theorem redactPixel_ne (v : Nat) : redactPixel v ≠ v := by
  unfold redactPixel
  omega

/-- Reading the redacted pixel buffer at an in-range index yields the masked
or copied original pixel according to PII membership of the point. -/
theorem getD_redactedPixels (pad : Nat) (a : Artifact) (dets : List Detection) (idx : Nat)
    (h : idx < a.width * a.height) :
    (redactedPixels pad a dets).getD idx 0 =
      if inAnyPII pad dets (idx % a.width) (idx / a.width) then
        redactPixel (a.pixels.getD idx 0)
      else a.pixels.getD idx 0 := by
  unfold redactedPixels
  rw [List.getD_eq_getElem?_getD, List.getElem?_map, List.getElem?_range h]
  simp

/-- Column recovery from a row-major index. -/
theorem rowcol_mod (x y w : Nat) (hx : x < w) : (y * w + x) % w = x := by
  rw [Nat.mul_comm y w, Nat.mul_add_mod]
  exact Nat.mod_eq_of_lt hx

/-- Row recovery from a row-major index. -/
theorem rowcol_div (x y w : Nat) (hx : x < w) : (y * w + x) / w = y := by
  rw [Nat.mul_comm y w, Nat.mul_add_div (by omega)]
  rw [Nat.div_eq_of_lt hx]
  omega

/-- A row-major index of an in-bounds point is within the pixel area. -/
theorem idx_lt_area (x y w h : Nat) (hx : x < w) (hy : y < h) : y * w + x < w * h := by
  calc y * w + x < y * w + w := by omega
    _ = (y + 1) * w := by ring
    _ ≤ h * w := Nat.mul_le_mul_right w hy
    _ = w * h := Nat.mul_comm h w

/-- C1: whenever the PII Redaction Stage publishes an artifact for an
Incident with at least one face or plate Detection, the published artifact
differs from the original only inside the padded detection bounding boxes,
every padded PII box contains an in-bounds point whose byte was altered
(the region is never byte-identical to the original region), the pixel
buffers have equal length, and the published pixel buffer is never the
unredacted original. -/
theorem C1_pii_redaction (pad : Nat) (a : Artifact) (dets : List Detection) (pub : Artifact)
    (hlen : a.pixels.length = a.width * a.height)
    (hpii : piiDets dets ≠ [])
    (hpub : redactStage pad a dets = some pub) :
    (∀ x y, x < a.width → y < a.height → inAnyPII pad dets x y = false →
      getPx pub x y = getPx a x y) ∧
    (∀ d ∈ piiDets dets, ∃ x y, inBox (padBox pad d.bbox) x y = true ∧
      x < a.width ∧ y < a.height ∧ getPx pub x y ≠ getPx a x y) ∧
    pub.pixels.length = a.pixels.length ∧
    pub.pixels ≠ a.pixels := by
  have hstage : ((piiDets dets).all fun d => validGeometry a (padBox pad d.bbox)) = true ∧
      pub = { width := a.width, height := a.height, pixels := redactedPixels pad a dets } := by
    unfold redactStage at hpub
    rw [if_neg hpii] at hpub
    by_cases hall : ((piiDets dets).all fun d => validGeometry a (padBox pad d.bbox)) = true
    · rw [if_pos hall] at hpub
      exact ⟨hall, (Option.some_inj.mp hpub).symm⟩
    · rw [if_neg hall] at hpub
      cases hpub
  obtain ⟨hall, hpubeq⟩ := hstage
  subst hpubeq
  have hregion : ∀ d ∈ piiDets dets, ∃ x y, inBox (padBox pad d.bbox) x y = true ∧
      x < a.width ∧ y < a.height ∧
      getPx { width := a.width, height := a.height, pixels := redactedPixels pad a dets } x y ≠
        getPx a x y := by
    intro d hd
    have hval : validGeometry a (padBox pad d.bbox) = true := by
      rw [List.all_eq_true] at hall
      exact hall d hd
    rw [validGeometry, Bool.and_eq_true, Bool.and_eq_true, Bool.and_eq_true] at hval
    obtain ⟨⟨⟨hw, hh⟩, hxw⟩, hyh⟩ := hval
    rw [decide_eq_true_eq] at hw hh hxw hyh
    have hx : (padBox pad d.bbox).x < a.width := by omega
    have hy : (padBox pad d.bbox).y < a.height := by omega
    refine ⟨(padBox pad d.bbox).x, (padBox pad d.bbox).y, ?_, hx, hy, ?_⟩
    · rw [inBox, Bool.and_eq_true, Bool.and_eq_true, Bool.and_eq_true]
      refine ⟨⟨⟨?_, ?_⟩, ?_⟩, ?_⟩ <;> rw [decide_eq_true_eq] <;> omega
    · have hidx : (padBox pad d.bbox).y * a.width + (padBox pad d.bbox).x <
          a.width * a.height := idx_lt_area _ _ _ _ hx hy
      have hin : inAnyPII pad dets (padBox pad d.bbox).x (padBox pad d.bbox).y = true := by
        rw [inAnyPII, List.any_eq_true]
        refine ⟨d, hd, ?_⟩
        rw [inBox, Bool.and_eq_true, Bool.and_eq_true, Bool.and_eq_true]
        refine ⟨⟨⟨?_, ?_⟩, ?_⟩, ?_⟩ <;> rw [decide_eq_true_eq] <;> omega
      show (redactedPixels pad a dets).getD
          ((padBox pad d.bbox).y * a.width + (padBox pad d.bbox).x) 0 ≠ getPx a _ _
      rw [getD_redactedPixels _ _ _ _ hidx, rowcol_mod _ _ _ hx, rowcol_div _ _ _ hx, hin]
      simpa [getPx] using redactPixel_ne
        (a.pixels.getD ((padBox pad d.bbox).y * a.width + (padBox pad d.bbox).x) 0)
  refine ⟨?_, hregion, ?_, ?_⟩
  · intro x y hx hy hout
    have hidx : y * a.width + x < a.width * a.height := idx_lt_area _ _ _ _ hx hy
    show (redactedPixels pad a dets).getD (y * a.width + x) 0 = getPx a x y
    rw [getD_redactedPixels _ _ _ _ hidx, rowcol_mod _ _ _ hx, rowcol_div _ _ _ hx, hout]
    simp [getPx]
  · simp [redactedPixels, hlen]
  · intro heq
    obtain ⟨d, hd⟩ := List.exists_mem_of_ne_nil _ hpii
    obtain ⟨x, y, _, hx, hy, hne⟩ := hregion d hd
    apply hne
    show (redactedPixels pad a dets).getD (y * a.width + x) 0 =
      a.pixels.getD (y * a.width + x) 0
    rw [show (redactedPixels pad a dets) =
      ({ width := a.width, height := a.height, pixels := redactedPixels pad a dets } : Artifact).pixels from rfl]
    rw [heq]

/-- Concrete instance of C1: a 3 by 3 artifact with one face detection; the
published pixel buffer is not the unredacted original. -/
theorem C1_pii_redaction_witness :
    piiDets [⟨⟨1, 1, 1, 1⟩, DetClass.face, 1⟩] ≠ [] ∧
    ({ width := 3, height := 3,
       pixels := redactedPixels 1 ⟨3, 3, [0, 1, 2, 3, 4, 5, 6, 7, 8]⟩
         [⟨⟨1, 1, 1, 1⟩, DetClass.face, 1⟩] } : Artifact).pixels ≠
      (⟨3, 3, [0, 1, 2, 3, 4, 5, 6, 7, 8]⟩ : Artifact).pixels := by
  refine ⟨by decide, ?_⟩
  exact (C1_pii_redaction 1 ⟨3, 3, [0, 1, 2, 3, 4, 5, 6, 7, 8]⟩
    [⟨⟨1, 1, 1, 1⟩, DetClass.face, 1⟩]
    { width := 3, height := 3,
      pixels := redactedPixels 1 ⟨3, 3, [0, 1, 2, 3, 4, 5, 6, 7, 8]⟩
        [⟨⟨1, 1, 1, 1⟩, DetClass.face, 1⟩] }
    (by decide) (by decide) (by decide)).2.2.2

/-- First-occurrence replacement is the identity when the pattern does not
occur in the subject. -/
theorem replaceFirstAux_of_not_contains (pat rep s : List Char)
    (h : containsSubstr pat s = false) : replaceFirstAux pat rep s = s := by
  induction s with
  | nil =>
      rw [containsSubstr] at h
      rw [replaceFirstAux, if_neg]
      intro hp
      rw [hp] at h
      simp at h
  | cons c cs ih =>
      rw [containsSubstr, Bool.or_eq_false_iff] at h
      rw [replaceFirstAux, if_neg (by simp [h.1]), ih h.2]

/-- Prefixing the https scheme never yields the empty string. -/
theorem https_append_ne_empty (g : String) : "https://" ++ g ≠ "" := by
  intro h
  have hd := congrArg String.data h
  rw [String.data_append] at hd
  simp at hd

/-- C9: in the App component, whenever window is defined the backend base
URL is the page hostname with the first occurrence of the substring frontend
replaced by backend, behind the https scheme; and whenever the guessed host
is empty (window undefined, or an empty hostname) the component renders the
fallback message instead of backend links. -/
theorem C9_backend_url (hostname : String) :
    guessedHost true hostname = jsReplaceFirst hostname "frontend" "backend" ∧
    guessedHost false hostname = "" ∧
    (hostname = "" → guessedHost true hostname = "") ∧
    (∀ wd : Bool, guessedHost wd hostname = "" →
      renderBackendSection wd hostname = .fallbackMessage) ∧
    (guessedHost true hostname ≠ "" →
      backendBase true hostname = "https://" ++ jsReplaceFirst hostname "frontend" "backend" ∧
      renderBackendSection true hostname =
        .links (backendBase true hostname ++ "/health")
          (backendBase true hostname ++ "/docs")) := by
  refine ⟨rfl, rfl, ?_, ?_, ?_⟩
  · intro h
    rw [h]
    decide
  · intro wd h
    simp [renderBackendSection, backendBase, h]
  · intro h
    have hb : backendBase true hostname =
        "https://" ++ jsReplaceFirst hostname "frontend" "backend" := by
      rw [backendBase, if_pos h]
      rfl
    refine ⟨hb, ?_⟩
    rw [renderBackendSection, if_pos]
    rw [hb]
    exact https_append_ne_empty _

/-- Concrete instance of C9: for the hostname of the deployed frontend the
backend base URL swaps frontend for backend behind https, and with window
undefined the component falls back. -/
theorem C9_backend_url_witness :
    backendBase true "accidentalert-frontend.onrender.com" =
      "https://" ++ jsReplaceFirst "accidentalert-frontend.onrender.com" "frontend" "backend" ∧
    renderBackendSection false "accidentalert-frontend.onrender.com" = .fallbackMessage := by
  constructor
  · exact ((C9_backend_url "accidentalert-frontend.onrender.com").2.2.2.2 (by decide)).1
  · exact (C9_backend_url "accidentalert-frontend.onrender.com").2.2.2.1 false rfl

/-- C10: for every nonempty hostname not containing the substring frontend,
the replace call is a no-op, so the rendered Backend API health and docs
links point at the own hostname of the page rather than any backend host. -/
theorem C10_replace_noop (hostname : String)
    (hne : hostname ≠ "")
    (hnc : containsSubstr "frontend".data hostname.data = false) :
    guessedHost true hostname = hostname ∧
    renderBackendSection true hostname =
      .links ("https://" ++ hostname ++ "/health") ("https://" ++ hostname ++ "/docs") := by
  have hg : guessedHost true hostname = hostname := by
    show jsReplaceFirst hostname "frontend" "backend" = hostname
    rw [jsReplaceFirst]
    rw [replaceFirstAux_of_not_contains _ _ _ hnc]
  have hb : backendBase true hostname = "https://" ++ hostname := by
    rw [backendBase, if_pos (by rw [hg]; exact hne), hg]
  refine ⟨hg, ?_⟩
  rw [renderBackendSection, if_pos (by rw [hb]; exact https_append_ne_empty hostname), hb]

/-- Concrete instance of C10: a hostname without the substring frontend is
kept as is, and the links of the page point at that same hostname. -/
theorem C10_replace_noop_witness :
    guessedHost true "myapp.onrender.com" = "myapp.onrender.com" ∧
    renderBackendSection true "myapp.onrender.com" =
      .links ("https://" ++ "myapp.onrender.com" ++ "/health")
        ("https://" ++ "myapp.onrender.com" ++ "/docs") :=
  C10_replace_noop "myapp.onrender.com" (by decide) (by decide)

end AccidentAlert
